import Mathlib

/-!
Verification of the poetry-pubgrub resolver core against its specification.

The definitions below are a shallow embedding of the Rust sources:
`src/version.rs` (PEP 440 version model), `src/ranges.rs` (specifier
parsing and the translation to version ranges), `src/provider.rs`
(the PyPI-backed dependency provider), `src/poetry_provider.rs`
(the root-pinning provider) and `src/lib.rs` (the public entry point).
External collaborators (the network, and the pubgrub library's range
algebra and selection helper, which are not part of the sources) are
modelled from the specification and are marked as such in their
doc comments.
-/

set_option maxRecDepth 4096

/-- The pre-release kind of a PEP 440 version (`Prerelease` in `src/version.rs`). -/
inductive Prerelease where
  | Alpha
  | Beta
  | ReleaseCandidate
deriving DecidableEq, Repr

/-- The version value of `src/version.rs` (`PEP440Version`): a release triple
plus epoch and optional pre/post/dev markers.  The struct has no local-segment
field: the parser discards any `+local` suffix. -/
structure PEP440Version where
  major : Nat
  minor : Nat
  patch : Nat
  epoch : Nat
  pre : Option (Prerelease × Nat)
  post : Option Nat
  dev : Option Nat
deriving DecidableEq, Repr

/-- `PEP440Version::new` from `src/version.rs`. -/
def PEP440Version.new (major minor patch : Nat) : PEP440Version :=
  { major := major, minor := minor, patch := patch,
    epoch := 0, pre := Option.none, post := Option.none, dev := Option.none }

/-- `PEP440Version::zero`. -/
def PEP440Version.zero : PEP440Version := PEP440Version.new 0 0 0

/-- `PEP440Version::one`. -/
def PEP440Version.one : PEP440Version := PEP440Version.new 1 0 0

/-- `PEP440Version::bump_major`.  The `+ 1` is a `u32` addition: it wraps to
`0` at `u32::MAX` (release-profile semantics; a debug build would panic). -/
def PEP440Version.bump_major (v : PEP440Version) : PEP440Version :=
  { v with major := (v.major + 1) % 4294967296 }

/-- `PEP440Version::bump_minor` (`u32` addition, wrapping at `u32::MAX`). -/
def PEP440Version.bump_minor (v : PEP440Version) : PEP440Version :=
  { v with minor := (v.minor + 1) % 4294967296 }

/-- `PEP440Version::bump_patch` (`u32` addition, wrapping at `u32::MAX`). -/
def PEP440Version.bump_patch (v : PEP440Version) : PEP440Version :=
  { v with patch := (v.patch + 1) % 4294967296 }

/-- `PEP440Version::pre_release`. -/
def PEP440Version.pre_release (v : PEP440Version) (kind : Prerelease) : PEP440Version :=
  { v with pre := some (kind, 0) }

/-- `PEP440Version::bump_post` (`u32` addition on the counter, wrapping at
`u32::MAX`). -/
def PEP440Version.bump_post (v : PEP440Version) : PEP440Version :=
  { v with post := some (match v.post with
      | Option.none => 0
      | some p => (p + 1) % 4294967296) }

/-- `PEP440Version::bump_dev` (`u32` addition on the counter, wrapping at
`u32::MAX`). -/
def PEP440Version.bump_dev (v : PEP440Version) : PEP440Version :=
  { v with dev := some (match v.dev with
      | Option.none => 0
      | some d => (d + 1) % 4294967296) }

/-- Comparison of natural numbers, as Rust's `Ord for u32`. -/
def natCmp (a b : Nat) : Ordering :=
  if a < b then .lt else if a = b then .eq else .gt

/-- Comparison of optional counters, as Rust's `Ord for Option<u32>`:
`None` sorts below every `Some`. -/
def optNatCmp (a b : Option Nat) : Ordering :=
  match a, b with
  | Option.none, Option.none => .eq
  | Option.none, some _ => .lt
  | some _, Option.none => .gt
  | some x, some y => natCmp x y

/-- `Ord::cmp` of `impl Ord for PEP440Version` in `src/version.rs`: the Rust
tuple comparison of `(major, minor, patch, post, dev)`.  Note that neither
`epoch` nor `pre` occurs in the tuple. -/
def PEP440Version.cmp (a b : PEP440Version) : Ordering :=
  (natCmp a.major b.major).then
    ((natCmp a.minor b.minor).then
      ((natCmp a.patch b.patch).then
        ((optNatCmp a.post b.post).then (optNatCmp a.dev b.dev))))

/-- `Version::bump` of `impl Version for PEP440Version` in `src/version.rs`.
Every `+ 1` is a `u32` addition and wraps to `0` at `u32::MAX`
(release-profile semantics; a debug build would panic). -/
def PEP440Version.bump (v : PEP440Version) : PEP440Version :=
  match v.pre, v.post, v.dev with
  | Option.none, Option.none, Option.none =>
    PEP440Version.new v.major v.minor ((v.patch + 1) % 4294967296)
  | some (k, n), Option.none, Option.none => { v with pre := some (k, (n + 1) % 4294967296) }
  | _, some _, Option.none => v.bump_post
  | _, _, some _ => v.bump_dev

/-- `Version::lowest` of `impl Version for PEP440Version`. -/
def PEP440Version.lowest : PEP440Version := PEP440Version.zero

/-- The counter that `bump` increments: the dev counter if the dev marker is
set, else the post counter if set, else the pre-release counter if set, else
the release patch number.  The match arms mirror `bump`'s dispatch. -/
def PEP440Version.bumpCounter (v : PEP440Version) : Nat :=
  match v.pre, v.post, v.dev with
  | Option.none, Option.none, Option.none => v.patch
  | some (_, n), Option.none, Option.none => n
  | _, some p, Option.none => p
  | _, _, some d => d

/-- Lexicographic comparison of lists of naturals, used to state the
specification's view of the `release` tuple. -/
def listLexCmp : List Nat → List Nat → Ordering
  | [], [] => .eq
  | [], _ :: _ => .lt
  | _ :: _, [] => .gt
  | a :: as_, b :: bs => (natCmp a b).then (listLexCmp as_ bs)

/-- Modelled from the spec: the ordering invariant of §3, literally
"two versions are ordered by comparing `(epoch, release, post, dev)` as a
lexicographic tuple".  This is the claimed ordering, to be compared with
the implemented `PEP440Version.cmp`. -/
def specTupleCmp (a b : PEP440Version) : Ordering :=
  (natCmp a.epoch b.epoch).then
    ((listLexCmp [a.major, a.minor, a.patch] [b.major, b.minor, b.patch]).then
      ((optNatCmp a.post b.post).then (optNatCmp a.dev b.dev)))

/-- The separator characters `[-_\.]` of `VERSION_PATTERN`. -/
def isSep (c : Char) : Bool := c == '-' || c == '_' || c == '.'

/-- The whitespace class `\s` of the patterns (ASCII whitespace). -/
def isWs (c : Char) : Bool :=
  c == ' ' || c == '\t' || c == '\n' || c == '\r' || c == '\x0b' || c == '\x0c'

/-- The local-segment character class `[a-z0-9]` of `VERSION_PATTERN`. -/
def isLocalChar (c : Char) : Bool := c.isDigit || (decide ('a' ≤ c) && decide ('z' ≥ c))

/-- Match a literal character sequence at the head of the input, returning the
rest on success. -/
def litMatch : List Char → List Char → Option (List Char)
  | [], s => some s
  | c :: cs, d :: ds => if c = d then litMatch cs ds else Option.none
  | _ :: _, [] => Option.none

/-- Try a list of literal alternatives in order (the regex engine's
leftmost-first alternation), backtracking into the continuation. -/
def tryAlts (alts : List (List Char)) (s : List Char)
    (k : List Char → List Char → Option α) : Option α :=
  alts.findSome? (fun a => (litMatch a s).bind (fun r => k a r))

/-- The optional separator `[-_\.]?`: greedily consume one separator character,
falling back to consuming nothing if the continuation fails. -/
def sepOpt (s : List Char) (k : List Char → Option α) : Option α :=
  (match s with
   | c :: r => if isSep c then k r else Option.none
   | [] => Option.none)
  <|> k s

/-- An optional greedy digit run `([0-9]+)?`.  The maximal run is attempted
first; no following element of `VERSION_PATTERN` can consume a digit, so
intermediate run lengths cannot help and are not attempted. -/
def digitsOpt (s : List Char) (k : Option (List Char) → List Char → Option α) : Option α :=
  let d := s.takeWhile Char.isDigit
  if d.isEmpty then k Option.none s
  else (k (some d) (s.dropWhile Char.isDigit)) <|> k Option.none s

/-- The `(?:\.[0-9]+)*` tail of the release segment: consume the maximal
sequence of dot-plus-digit-run groups (no later element of the pattern can
match a dot followed by a digit, so maximal munch is exact).  The fuel is
an upper bound on the recursion depth; each step consumes at least two
characters. -/
def dotNums : Nat → List Char → List Char × List Char
  | 0, s => ([], s)
  | fuel + 1, s =>
    match s with
    | c :: rest =>
      if c = '.' then
        let d := rest.takeWhile Char.isDigit
        if d.isEmpty then ([], s)
        else
          let (more, r2) := dotNums fuel (rest.dropWhile Char.isDigit)
          ('.' :: (d ++ more), r2)
      else ([], s)
    | [] => ([], s)

/-- The pre-release alternation `(a|b|c|rc|alpha|beta|pre|preview)` in the
order written in `VERSION_PATTERN`. -/
def preAlts : List (List Char) :=
  [['a'], ['b'], ['c'], ['r', 'c'], ['a', 'l', 'p', 'h', 'a'],
   ['b', 'e', 't', 'a'], ['p', 'r', 'e'], ['p', 'r', 'e', 'v', 'i', 'e', 'w']]

/-- The post-release alternation `(post|rev|r)` of `VERSION_PATTERN`. -/
def postAlts : List (List Char) := [['p', 'o', 's', 't'], ['r', 'e', 'v'], ['r']]

/-- The optional pre-release group
`([-_\.]?(a|b|c|rc|alpha|beta|pre|preview)[-_\.]?([0-9]+)?)?` of
`VERSION_PATTERN`; the continuation receives the captured tag letters and the
optional counter digits. -/
def tryPre (s : List Char)
    (k : Option (List Char × Option (List Char)) → List Char → Option α) : Option α :=
  (sepOpt s (fun s1 =>
    tryAlts preAlts s1 (fun name s2 =>
      sepOpt s2 (fun s3 =>
        digitsOpt s3 (fun n s4 => k (some (name, n)) s4)))))
  <|> k Option.none s

/-- The optional post-release group
`((?:-([0-9]+))|(?:[-_\.]?(post|rev|r)[-_\.]?([0-9]+)?))?` of
`VERSION_PATTERN`; the continuation receives the `post_n1` capture (the bare
`-N` shorthand) and the `post_n2` capture (the counter of a spelled tag),
in that order. -/
def tryPost (s : List Char)
    (k : Option (List Char) → Option (List Char) → List Char → Option α) : Option α :=
  (match s with
   | c :: r =>
     if c = '-' then
       let d := r.takeWhile Char.isDigit
       if d.isEmpty then Option.none
       else k (some d) Option.none (r.dropWhile Char.isDigit)
     else Option.none
   | [] => Option.none)
  <|> (sepOpt s (fun s1 =>
        tryAlts postAlts s1 (fun _ s2 =>
          sepOpt s2 (fun s3 =>
            digitsOpt s3 (fun n s4 => k Option.none n s4)))))
  <|> k Option.none Option.none s

/-- The optional dev-release group `([-_\.]?dev[-_\.]?([0-9]+)?)?` of
`VERSION_PATTERN`; the continuation receives the `dev_n` capture. -/
def tryDev (s : List Char) (k : Option (List Char) → List Char → Option α) : Option α :=
  (sepOpt s (fun s1 =>
    (litMatch ['d', 'e', 'v'] s1).bind (fun s2 =>
      sepOpt s2 (fun s3 =>
        digitsOpt s3 (fun n s4 => k n s4)))))
  <|> k Option.none s

/-- The `(?:[-_\.][a-z0-9]+)*` tail of the local segment (maximal munch; the
pattern ends right after it). -/
def localChunks : Nat → List Char → List Char
  | 0, s => s
  | fuel + 1, s =>
    match s with
    | c :: r =>
      if isSep c then
        let a := r.takeWhile isLocalChar
        if a.isEmpty then s else localChunks fuel (r.dropWhile isLocalChar)
      else s
    | [] => s

/-- The optional local segment `(?:\+([a-z0-9]+(?:[-_\.][a-z0-9]+)*))?`
followed by the end anchor `$`; the continuation is told whether a local
segment was present. -/
def tryLocalEnd (s : List Char) (k : Bool → Option α) : Option α :=
  (match s with
   | c :: r =>
     if c = '+' then
       let a := r.takeWhile isLocalChar
       if a.isEmpty then Option.none
       else if localChunks r.length (r.dropWhile isLocalChar) = ([] : List Char) then k true
       else Option.none
     else Option.none
   | [] => Option.none)
  <|> (if s.isEmpty then k false else Option.none)

/-- The capture groups of `VERSION_PATTERN` that `PEP440Version::from_str`
reads (`release`, `pre_l`, `pre_n`, `post_n2`, `dev_n`), together with the
groups the parser deliberately ignores (`epoch`, `post_n1`, `local`). -/
structure VersionCaptures where
  release : List Char
  preL : Option (List Char)
  preN : Option (List Char)
  postN1 : Option (List Char)
  postN2 : Option (List Char)
  devN : Option (List Char)
  epochN : Option (List Char)
  hasLocal : Bool
deriving DecidableEq, Repr

/-- The anchored match of `VERSION_PATTERN` from `src/version.rs` against a
whole string, with the regex engine's leftmost-first semantics.  The leading
`v?`, the epoch `(?:([0-9]+)!)?` and the release `[0-9]+(?:\.[0-9]+)*` are
deterministic (no later element can consume their characters), and the
optional groups after the release backtrack through the continuations. -/
def versionCaptures (s0 : List Char) : Option VersionCaptures :=
  let s1 := match s0 with
    | c :: r => if c = 'v' then r else s0
    | [] => s0
  let ed := s1.takeWhile Char.isDigit
  let er := s1.dropWhile Char.isDigit
  let (epochN, s2) :=
    if ed.isEmpty then ((Option.none : Option (List Char)), s1)
    else
      match er with
      | c :: r2 => if c = '!' then (some ed, r2) else (Option.none, s1)
      | [] => (Option.none, s1)
  let rd := s2.takeWhile Char.isDigit
  if rd.isEmpty then Option.none
  else
    let (rtail, s3) := dotNums s2.length (s2.dropWhile Char.isDigit)
    tryPre s3 (fun preC s4 =>
      tryPost s4 (fun pn1 pn2 s5 =>
        tryDev s5 (fun devC s6 =>
          tryLocalEnd s6 (fun hasLoc =>
            some { release := rd ++ rtail,
                   preL := preC.map Prod.fst,
                   preN := preC.bind Prod.snd,
                   postN1 := pn1,
                   postN2 := pn2,
                   devN := devC,
                   epochN := epochN,
                   hasLocal := hasLoc }))))

/-- The parse-error kinds of `src/version.rs` (`VersionParseError`). -/
inductive VersionParseError where
  | NotThreeParts (full_version : String)
  | ParseIntError (full_version : String) (version_part : String) (parse_error : String)
  | PrereleaseParseError (full_version : String) (pre_name : String)
deriving DecidableEq, Repr

/-- The digit conversion underlying `str::parse::<u32>` on a captured part. -/
def natOfDigits (l : List Char) : Nat :=
  l.foldl (fun n c => n * 10 + (c.toNat - 48)) 0

/-- The `parse_u32` closure of `PEP440Version::from_str`: `str::parse::<u32>`
wrapped into `VersionParseError::ParseIntError`.  It fails on an empty or
non-digit part and on `u32` overflow. -/
def parse_u32 (full : String) (part : List Char) : Except VersionParseError Nat :=
  if part.isEmpty then
    .error (.ParseIntError full (String.mk part) "cannot parse integer from empty string")
  else if (part.all Char.isDigit) = false then
    .error (.ParseIntError full (String.mk part) "invalid digit found in string")
  else if natOfDigits part < 4294967296 then .ok (natOfDigits part)
  else .error (.ParseIntError full (String.mk part) "number too large to fit in target type")

/-- `FromStr for Prerelease` in `src/version.rs`. -/
def Prerelease.from_str (s : String) : Except VersionParseError Prerelease :=
  if s = "a" ∨ s = "alpha" then .ok .Alpha
  else if s = "b" ∨ s = "beta" then .ok .Beta
  else if s = "rc" ∨ s = "c" ∨ s = "pre" ∨ s = "preview" then .ok .ReleaseCandidate
  else .error (.PrereleaseParseError s s)

/-- Rust's `str::split` on a single-character separator. -/
def splitOnChar (sep : Char) : List Char → List (List Char)
  | [] => [[]]
  | c :: r =>
    let rest := splitOnChar sep r
    if c = sep then [] :: rest
    else
      match rest with
      | h :: t => (c :: h) :: t
      | [] => [[c]]

/-- `FromStr for PEP440Version` in `src/version.rs`: match `VERSION_PATTERN`,
then read the `dev_n`, `post_n2`, `pre_l`/`pre_n` and `release` captures, in
the source's order.  The epoch is hard-coded to `0` and the `post_n1` and
`local` captures are never read. -/
def PEP440Version.from_str (s : String) : Except VersionParseError PEP440Version :=
  match versionCaptures s.data with
  | Option.none => .error (.NotThreeParts s)
  | some c =>
    match (match c.devN with
           | some m => (parse_u32 s m).map some
           | Option.none => .ok Option.none) with
    | .error e => .error e
    | .ok dev =>
    match (match c.postN2 with
           | some m => (parse_u32 s m).map some
           | Option.none => .ok Option.none) with
    | .error e => .error e
    | .ok post =>
    match (match c.preL, c.preN with
           | some nm, some ver =>
             (Prerelease.from_str (String.mk nm)).bind (fun pr =>
               (parse_u32 s ver).map (fun n => some (pr, n)))
           | _, _ => .ok Option.none) with
    | .error e => .error e
    | .ok pre =>
    match (match splitOnChar '.' c.release with
           | a :: b :: d :: _ =>
             (parse_u32 s a).bind (fun x =>
               (parse_u32 s b).bind (fun y =>
                 (parse_u32 s d).map (fun z => (x, y, z))))
           | [a, b] =>
             (parse_u32 s a).bind (fun x =>
               (parse_u32 s b).map (fun y => (x, y, 0)))
           | [a] => (parse_u32 s a).map (fun x => (x, 0, 0))
           | [] => .error (.NotThreeParts s)) with
    | .error e => .error e
    | .ok (maj, minr, pat) =>
      .ok { major := maj, minor := minr, patch := pat, epoch := 0,
            pre := pre, post := post, dev := dev }

/-- Version strictly-less under the implemented ordering. -/
def vlt (a b : PEP440Version) : Bool :=
  match PEP440Version.cmp a b with | .lt => true | _ => false

/-- Version less-or-equal under the implemented ordering. -/
def vle (a b : PEP440Version) : Bool :=
  match PEP440Version.cmp a b with | .gt => false | _ => true

/-- Version equivalence under the implemented ordering. -/
def veq (a b : PEP440Version) : Bool :=
  match PEP440Version.cmp a b with | .eq => true | _ => false

/-- Version strictly-greater under the implemented ordering. -/
def vgt (a b : PEP440Version) : Bool :=
  match PEP440Version.cmp a b with | .gt => true | _ => false

/-- Modelled from the spec: the `Range` type of the pubgrub library, which is
not among the sources.  §3 describes a Range abstractionally as "an immutable
set of Versions"; it is embedded here as its membership (`contains`)
function, with the canonical constructors and the closed algebra of §3/§4.2
defined set-wise. -/
abbrev Range := PEP440Version → Bool

/-- Modelled from the spec: `any` (universal set). -/
def Range.any : Range := fun _ => true

/-- Modelled from the spec: `none` (empty set). -/
def Range.noneRange : Range := fun _ => false

/-- Modelled from the spec: `exact(v)` (singleton). -/
def Range.exact (v : PEP440Version) : Range := fun w => veq w v

/-- Modelled from the spec: `higherThan(v)`, the half-open `[v, +inf)`. -/
def Range.higher_than (v : PEP440Version) : Range := fun w => vle v w

/-- Modelled from the spec: `strictlyLowerThan(v)`, the half-open `(-inf, v)`. -/
def Range.strictly_lower_than (v : PEP440Version) : Range := fun w => vlt w v

/-- Modelled from the spec: `between(lo, hi)`, the interval `[lo, hi)`. -/
def Range.between (lo hi : PEP440Version) : Range := fun w => vle lo w && vlt w hi

/-- Modelled from the spec: `union`. -/
def Range.union (r s : Range) : Range := fun w => r w || s w

/-- Modelled from the spec: `intersection`. -/
def Range.intersection (r s : Range) : Range := fun w => r w && s w

/-- Modelled from the spec: `negate` (complement within `any`). -/
def Range.negate (r : Range) : Range := fun w => ! r w

/-- Modelled from the spec: `contains(v)`. -/
def Range.contains (r : Range) (w : PEP440Version) : Bool := r w

/-- The comparator enum `Compare` of `src/ranges.rs`. -/
inductive Compare where
  | Compatible
  | Matching
  | Exclusion
  | LessOrEqual
  | GreaterOrEqual
  | StrictLess
  | StrictGreater
  | ArbitraryEqual
deriving DecidableEq, Repr

/-- `FromStr for Compare` in `src/ranges.rs` (its `Err` is `()`; `Option`
models the result). -/
def Compare.from_str (s : List Char) : Option Compare :=
  if s = ['~', '='] then some .Compatible
  else if s = ['=', '='] then some .Matching
  else if s = ['!', '='] then some .Exclusion
  else if s = ['<', '='] then some .LessOrEqual
  else if s = ['>', '='] then some .GreaterOrEqual
  else if s = ['<'] then some .StrictLess
  else if s = ['>'] then some .StrictGreater
  else if s = ['=', '=', '='] then some .ArbitraryEqual
  else Option.none

/-- `compare_to_range` from `src/ranges.rs`, translated constructor for
constructor. -/
def compare_to_range : Compare → PEP440Version → Range
  | .GreaterOrEqual, v => Range.higher_than v
  | .LessOrEqual, v => (Range.strictly_lower_than v).union (Range.exact v)
  | .StrictLess, v => Range.strictly_lower_than v
  | .Matching, v => Range.exact v
  | .ArbitraryEqual, v => Range.exact v
  | .Compatible, v => Range.exact v
  | .Exclusion, v => (Range.exact v).negate
  | .StrictGreater, v => ((Range.strictly_lower_than v).union (Range.exact v)).negate

/-- The comparator alternation `(~=|==|!=|<=|>=|<|>|===)` of
`SPECIFIER_PATTERN` in `src/ranges.rs`, in source order (the regex engine's
leftmost-first alternation means `==` shadows `===`). -/
def compareAlts : List (List Char) :=
  [['~', '='], ['=', '='], ['!', '='], ['<', '='], ['>', '='], ['<'], ['>'], ['=', '=', '=']]

/-- The anchored match of `SPECIFIER_PATTERN`
(`^(~=|==|!=|<=|>=|<|>|===)\s*(\S+)\s*$`) returning the `compare` and
`version` captures.  After the comparator, only the maximal whitespace run
and the maximal non-whitespace run can complete the match, so those parts
are deterministic. -/
def specifierCaptures (s : List Char) : Option (List Char × List Char) :=
  compareAlts.findSome? (fun a =>
    (litMatch a s).bind (fun r =>
      let r1 := r.dropWhile isWs
      let v := r1.takeWhile (fun c => ! isWs c)
      let r2 := r1.dropWhile (fun c => ! isWs c)
      if v.isEmpty then Option.none
      else if (r2.dropWhile isWs).isEmpty then some (a, v) else Option.none))

/-- The three observable outcomes of `parse_specifier` in `src/ranges.rs`:
no regex match (`None`), a panic of the `.expect(..)` on an unparseable
version, or a produced range. -/
inductive SpecResult where
  | noMatch
  | panicked
  | found (r : Range)

/-- Whether a specifier parse produced a range. -/
def SpecResult.isFound : SpecResult → Bool
  | .found _ => true
  | _ => false

/-- Whether a specifier parse panicked. -/
def SpecResult.isPanicked : SpecResult → Bool
  | .panicked => true
  | _ => false

/-- The range of a successful specifier parse (junk value otherwise). -/
def SpecResult.range : SpecResult → Range
  | .found r => r
  | _ => Range.any

/-- `parse_specifier` from `src/ranges.rs` on the raw character list: match
`SPECIFIER_PATTERN`, parse the `version` capture (panicking via `.expect` if
it is not a valid version), parse the `compare` capture, and combine with
`compare_to_range`. -/
def parseSpecifierChars (s : List Char) : SpecResult :=
  match specifierCaptures s with
  | Option.none => .noMatch
  | some (cmpS, verS) =>
    match PEP440Version.from_str (String.mk verS) with
    | .error _ => .panicked
    | .ok v =>
      match Compare.from_str cmpS with
      | Option.none => .noMatch
      | some c => .found (compare_to_range c v)

/-- `parse_specifier` from `src/ranges.rs`. -/
def parse_specifier (s : String) : SpecResult := parseSpecifierChars s.data

/-- The capture groups of `DEPENDENCY_PATTERN` in `src/ranges.rs`:
`name`, the optional parenthesized `specs`, and the optional `extra`
marker text after a semicolon. -/
structure DepCaptures where
  name : List Char
  specs : Option (List Char)
  extra : Option (List Char)
deriving DecidableEq, Repr

/-- The end of `DEPENDENCY_PATTERN` after the optional specs group:
`\s*` has already been consumed by the caller; match the optional
`(?:;\s*(.*))?` extra group (present first, as the regex engine does) and
then the end anchor.  `.*` cannot cross a newline and `$` is the absolute
end of the haystack. -/
def depEnd (nm : List Char) (specs : Option (List Char)) (s : List Char) : Option DepCaptures :=
  (match s with
   | c :: r =>
     if c = ';' then
       let e := r.dropWhile isWs
       if e.all (fun c2 => c2 ≠ '\n') then some ⟨nm, specs, some e⟩ else Option.none
     else Option.none
   | [] => Option.none)
  <|> (if s.isEmpty then some ⟨nm, specs, Option.none⟩ else Option.none)

/-- The lazy specs group `\((.+?)\)` of `DEPENDENCY_PATTERN`: after the
opening parenthesis, try the shortest non-empty newline-free body followed
by a closing parenthesis first, extending it only when the continuation
fails (the regex engine's lazy `+?`). -/
def depSpecs (nm : List Char) (r : List Char) : Option DepCaptures :=
  (List.range r.length).findSome? (fun i =>
    let len := i + 1
    let body := r.take len
    if body.all (fun c => c ≠ '\n') then
      match r.drop len with
      | c :: r2 => if c = ')' then depEnd nm (some body) (r2.dropWhile isWs) else Option.none
      | [] => Option.none
    else Option.none)

/-- The `\(` of the specs group, after the optional colon of `(:?\(...)`. -/
def depParenAfterColon (nm : List Char) (s : List Char) : Option DepCaptures :=
  match s with
  | c :: r => if c = '(' then depSpecs nm r else Option.none
  | [] => Option.none

/-- The optional specs group `(:?\((.+?)\))?` of `DEPENDENCY_PATTERN`:
the group (with its optional leading colon consumed greedily) is attempted
before falling back to no group at all. -/
def depAfterName (nm : List Char) (s : List Char) : Option DepCaptures :=
  ((match s with
    | c :: r => if c = ':' then depParenAfterColon nm r else Option.none
    | [] => Option.none)
   <|> depParenAfterColon nm s)
  <|> depEnd nm Option.none s

/-- The anchored match of `DEPENDENCY_PATTERN`
(`^(\S+)\s*(:?\((.+?)\))?\s*(?:;\s*(.*))?$`) from `src/ranges.rs`.  The
greedy `\S+` name tries the maximal non-whitespace run first and backtracks
to shorter prefixes; each following `\s*` is deterministic because no
successor element can begin with whitespace. -/
def dependencyCaptures (s : List Char) : Option DepCaptures :=
  let run := s.takeWhile (fun c => ! isWs c)
  let tail := s.dropWhile (fun c => ! isWs c)
  if run.isEmpty then Option.none
  else
    (List.range run.length).findSome? (fun i =>
      let len := run.length - i
      depAfterName (run.take len) ((run.drop len ++ tail).dropWhile isWs))

/-- `parse_dependency` from `src/ranges.rs`.  The outer `Option` is the
panic behaviour (`none` = a specifier's `.expect` panicked); the inner
`Option` is the Rust function's own return value: `none` when the regex
does not match or the requirement carries an extra marker, otherwise the
package name with the left fold of `intersection` over the ranges of the
comma-separated specifiers (unmatched specifiers are skipped by the
`filter_map`). -/
def parse_dependency (s : String) : Option (Option (String × Range)) :=
  match dependencyCaptures s.data with
  | Option.none => some Option.none
  | some caps =>
    if caps.extra.isSome then some Option.none
    else
      match caps.specs with
      | some specsChars =>
        let pieces := splitOnChar ',' specsChars
        if pieces.any (fun p => (parseSpecifierChars p).isPanicked) then Option.none
        else
          some (some (String.mk caps.name,
            pieces.foldl (fun acc p =>
              match parseSpecifierChars p with
              | .found r => acc.intersection r
              | _ => acc) Range.any))
      | Option.none => some (some (String.mk caps.name, Range.any))

/-- The `Dependencies` answer of the pubgrub `DependencyProvider` interface
as used by the sources: a known constraint set, or the "unknown — assume
satisfiable" sentinel. -/
inductive Dependencies where
  | Known (deps : List (String × Range))
  | Unknown

/-- A dependency constraint set: package names paired with ranges
(`DependencyConstraints` in the sources). -/
abbrev DependencyConstraints := List (String × Range)

/-- Stable insertion of a version into an ascending list (after any
equally-ordered elements), mirroring `Vec::sort`'s ascending stable order. -/
def insertVersion (v : PEP440Version) : List PEP440Version → List PEP440Version
  | [] => [v]
  | w :: ws => if PEP440Version.cmp w v = .gt then v :: w :: ws else w :: insertVersion v ws

/-- Stable ascending sort by the implemented ordering (`versions.sort()` in
`src/provider.rs`). -/
def sortVersions (l : List PEP440Version) : List PEP440Version :=
  l.foldl (fun acc v => insertVersion v acc) []

/-- The `list_available_versions` closure of
`PypiProvider::choose_package_version` in `src/provider.rs`: fetch the
release keys of a package from the registry, parse the well-formed ones and
sort ascending; a transport or decode failure is swallowed by
`.unwrap_or(Default::default())`, yielding the empty list.  The registry
response is the `fetch` parameter (the network is external to the sources);
the per-call memoization cache is semantically invisible here. -/
def listAvailableVersions (fetch : String → Except String (List String))
    (package : String) : List PEP440Version :=
  match fetch package with
  | .ok keys => sortVersions (keys.filterMap (fun k => (PEP440Version.from_str k).toOption))
  | .error _ => sortVersions []

/-- Modelled from the spec: pubgrub's `choose_package_with_fewest_versions`
helper, which is not among the sources.  §4.4: select the candidate package
with the fewest available versions inside its range (ties broken by
iteration order, first wins), and pair it with the first available version
in its range, or `None` if no version satisfies the range.  `none` is
returned only on an empty candidate sequence, which the resolver never
passes. -/
def choosePackageWithFewestVersions (avail : String → List PEP440Version) :
    List (String × Range) → Option (String × Option PEP440Version)
  | [] => Option.none
  | c :: cs =>
    let count := fun (pr : String × Range) => ((avail pr.1).filter (fun v => pr.2 v)).length
    let best := cs.foldl (fun b x => if count x < count b then x else b) c
    some (best.1, (avail best.1).find? (fun v => best.2 v))

/-- `PypiProvider::choose_package_version` from `src/provider.rs`: list each
candidate's available versions in descending order (hence `.reverse`) and
delegate to `choose_package_with_fewest_versions`; the result is always
wrapped in `Ok` — fetch failures were already swallowed into an empty
version list. -/
def PypiProvider.choose_package_version (fetch : String → Except String (List String))
    (potential_packages : List (String × Range)) :
    Option (Except String (String × Option PEP440Version)) :=
  (choosePackageWithFewestVersions
    (fun p => (listAvailableVersions fetch p).reverse) potential_packages).map Except.ok

/-- `get_deps` from `src/provider.rs`: fetch the `requires_dist` list of a
release (the `fetchDeps` parameter models the HTTP GET plus JSON decode,
whose failures propagate via `?`), defaulting a missing list to empty, and
keep the requirement lines `parse_dependency` accepts.  The outer `Option`
is the panic behaviour of `parse_specifier`'s `.expect` on a malformed
version inside a requirement line. -/
def get_deps (fetchDeps : String → PEP440Version → Except String (Option (List String)))
    (package : String) (version : PEP440Version) :
    Option (Except String DependencyConstraints) :=
  match fetchDeps package version with
  | .error e => some (.error e)
  | .ok rd =>
    let l := rd.getD []
    if l.any (fun str => (parse_dependency str).isNone) then Option.none
    else some (.ok (l.filterMap (fun str => (parse_dependency str).join)))

/-- `PypiProvider::get_dependencies` from `src/provider.rs`: `get_deps` with
its error propagated and its value wrapped in `Dependencies::Known`. -/
def PypiProvider.get_dependencies
    (fetchDeps : String → PEP440Version → Except String (Option (List String)))
    (package : String) (version : PEP440Version) : Option (Except String Dependencies) :=
  match get_deps fetchDeps package version with
  | Option.none => Option.none
  | some (.error e) => some (.error e)
  | some (.ok d) => some (.ok (.Known d))

/-- `RootPackage` from `src/poetry_provider.rs`, at the concrete
`String`/`PEP440Version` instantiation used by `PoetryProvider`. -/
structure RootPackage where
  package : String
  version : PEP440Version
  dependencies : DependencyConstraints

/-- `PoetryProvider::choose_package_version` from `src/poetry_provider.rs`:
the body is a plain delegation to the inner `PypiProvider` — the
root-package special case present in the file is commented out. -/
def PoetryProvider.choose_package_version (fetch : String → Except String (List String))
    (root : RootPackage) (potential_packages : List (String × Range)) :
    Option (Except String (String × Option PEP440Version)) :=
  PypiProvider.choose_package_version fetch potential_packages

/-- `PoetryProvider::get_dependencies` from `src/poetry_provider.rs`: the
pinned dependencies for the root package, delegation to the inner
`PypiProvider` for every other package. -/
def PoetryProvider.get_dependencies
    (fetchDeps : String → PEP440Version → Except String (Option (List String)))
    (root : RootPackage) (package : String) (version : PEP440Version) :
    Option (Except String Dependencies) :=
  if package = root.package then some (.ok (.Known root.dependencies))
  else PypiProvider.get_dependencies fetchDeps package version

/-- A registry stub whose every fetch fails with a transport error. -/
def failingFetch : String → Except String (List String) :=
  fun _ => .error "connection refused"

/-- A release-metadata stub whose every fetch fails with a transport error. -/
def failingFetchDeps : String → PEP440Version → Except String (Option (List String)) :=
  fun _ _ => .error "connection refused"

/-- A root package fixture: `root` pinned at `1.0.0` with no dependencies. -/
def exampleRoot : RootPackage :=
  { package := "root", version := PEP440Version.one, dependencies := [] }

/-- `resolve_pywrapper` from `src/lib.rs`.  The resolver runs behind
`resolve(&provider, ..).unwrap()` and its outcome is modelled by the
`resolveFn` parameter; per requirement the version string is parsed with
`.expect(..)` (panic on failure, the outer `none`) and resolved with
`.unwrap()` (panic on failure), the solutions are bound to the discarded
`_r`, and the function then returns the hard-coded test vector
`[("foo", "1.2.3")]` whatever its inputs were.  `dev_requires` is only
printed. -/
def resolve_pywrapper
    (resolveFn : String → PEP440Version → Option (List (String × PEP440Version)))
    (root version : String)
    (requires dev_requires : List (String × String)) :
    Option (List (String × String)) :=
  if requires.all (fun req =>
      match PEP440Version.from_str req.2 with
      | .error _ => false
      | .ok v => (resolveFn req.1 v).isSome) then
    some [("foo", "1.2.3")]
  else Option.none

/-- A resolver stub that fails on every input. -/
def nullResolver : String → PEP440Version → Option (List (String × PEP440Version)) :=
  fun _ _ => Option.none

theorem natCmp_self (a : Nat) : natCmp a a = .eq := by
  simp [natCmp]

theorem natCmp_succ (a : Nat) : natCmp a (a + 1) = .lt := by
  simp [natCmp]

theorem ordering_then_assoc (a b c : Ordering) :
    (a.then b).then c = a.then (b.then c) := by
  cases a <;> cases b <;> rfl

theorem ordering_then_eq (a : Ordering) : a.then .eq = a := by
  cases a <;> rfl

theorem ordering_eq_then (a : Ordering) : Ordering.eq.then a = a := rfl

theorem ordering_lt_then (a : Ordering) : Ordering.lt.then a = .lt := rfl

theorem ordering_gt_then (a : Ordering) : Ordering.gt.then a = .gt := rfl

theorem optNatCmp_none_none : optNatCmp Option.none Option.none = .eq := rfl

theorem optNatCmp_none_some (x : Nat) : optNatCmp Option.none (some x) = .lt := rfl

theorem optNatCmp_some_some (x y : Nat) : optNatCmp (some x) (some y) = natCmp x y := rfl

theorem mod_u32_succ {x : Nat} (h : x < 4294967295) : (x + 1) % 4294967296 = x + 1 :=
  Nat.mod_eq_of_lt (by omega)

/-- Claim C2 counterexample: on the pair
`a = 1.0.0 with epoch 1` and `b = 2.0.0 with epoch 0`, the implemented
ordering (`Ord::cmp`, which never reads `epoch`) answers `lt`, while the
claimed lexicographic comparison of `(epoch, release, post, dev)` answers
`gt`; so `cmp` does not equal the claimed tuple comparison. -/
theorem claim2_counterexample :
    PEP440Version.cmp { PEP440Version.new 1 0 0 with epoch := 1 } (PEP440Version.new 2 0 0) = .lt
    ∧ specTupleCmp { PEP440Version.new 1 0 0 with epoch := 1 } (PEP440Version.new 2 0 0) = .gt
    ∧ PEP440Version.cmp { PEP440Version.new 1 0 0 with epoch := 1 } (PEP440Version.new 2 0 0)
      ≠ specTupleCmp { PEP440Version.new 1 0 0 with epoch := 1 } (PEP440Version.new 2 0 0) := by
  refine ⟨by decide, by decide, by decide⟩

/-- Claim C2 (amended): `Ord::cmp` is the lexicographic comparison of the
tuples `(release, post, dev)` — the epoch never participates, in addition to
the pre-release field never participating — and the example chain
`(1,0,0) < (1,0,1) < (1,1,0) < (2,0,0)` holds. -/
theorem claim2_ordering_amended :
    (∀ a b : PEP440Version,
      PEP440Version.cmp a b =
        (listLexCmp [a.major, a.minor, a.patch] [b.major, b.minor, b.patch]).then
          ((optNatCmp a.post b.post).then (optNatCmp a.dev b.dev)))
    ∧ (∀ (a b : PEP440Version) (pa pb : Option (Prerelease × Nat)) (ea eb : Nat),
      PEP440Version.cmp { a with pre := pa, epoch := ea } { b with pre := pb, epoch := eb }
        = PEP440Version.cmp a b)
    ∧ (PEP440Version.cmp (PEP440Version.new 1 0 0) (PEP440Version.new 1 0 1) = .lt
       ∧ PEP440Version.cmp (PEP440Version.new 1 0 1) (PEP440Version.new 1 1 0) = .lt
       ∧ PEP440Version.cmp (PEP440Version.new 1 1 0) (PEP440Version.new 2 0 0) = .lt) := by
  refine ⟨?_, ?_, by decide, by decide, by decide⟩
  · intro a b
    simp only [PEP440Version.cmp, listLexCmp, ordering_then_assoc, ordering_then_eq]
  · intro a b pa pb ea eb
    rfl

/-- Claim C3 counterexample: for `v = 1.0.0a0`, `bump v = 1.0.0a1` compares
`eq` to `v` (so `bump v > v` fails), and for `v = 1.0.0` the version
`1.0.0dev0` lies strictly between `v` and `bump v = 1.0.1` (so `bump v` is
not the smallest version strictly greater than `v`). -/
theorem claim3_counterexample :
    PEP440Version.cmp ((PEP440Version.one.pre_release Prerelease.Alpha).bump)
        (PEP440Version.one.pre_release Prerelease.Alpha) = .eq
    ∧ (PEP440Version.one.pre_release Prerelease.Alpha).bump
        = { PEP440Version.one with pre := some (Prerelease.Alpha, 1) }
    ∧ PEP440Version.cmp PEP440Version.one { PEP440Version.one with dev := some 0 } = .lt
    ∧ PEP440Version.cmp { PEP440Version.one with dev := some 0 } PEP440Version.one.bump = .lt := by
  refine ⟨by decide, by decide, by decide, by decide⟩

/-- Claim C3 (amended): `bump` advances the most-specific axis currently set
(dev over post over pre over release-patch) with a wrapping `u32` increment.
Whenever the active axis's counter is below `u32::MAX`, `bump v` is never
below `v`, and it compares equal to `v` exactly when the active axis is the
pre-release axis (pre does not participate in the ordering); even below the
boundary, for a plain release, `bump v` is not the smallest version strictly
greater than `v` (the version with `dev := 0` added lies strictly in
between); and at `patch = u32::MAX` the increment wraps to `0`, so `bump v`
compares strictly below `v`. -/
theorem claim3_bump_amended :
    (∀ v : PEP440Version, v.bumpCounter < 4294967295 →
      PEP440Version.cmp v v.bump ≠ .gt)
    ∧ (∀ v : PEP440Version, v.bumpCounter < 4294967295 →
      (PEP440Version.cmp v v.bump = .eq
        ↔ (v.pre ≠ Option.none ∧ v.post = Option.none ∧ v.dev = Option.none)))
    ∧ (∀ v : PEP440Version,
        v.pre = Option.none → v.post = Option.none → v.dev = Option.none →
        v.patch < 4294967295 →
        PEP440Version.cmp v { v with dev := some 0 } = .lt
          ∧ PEP440Version.cmp { v with dev := some 0 } v.bump = .lt)
    ∧ (∀ v : PEP440Version,
        v.pre = Option.none → v.post = Option.none → v.dev = Option.none →
        v.patch = 4294967295 →
        PEP440Version.cmp v v.bump = .gt) := by
  refine ⟨?_, ?_, ?_, ?_⟩
  · intro v hlt
    obtain ⟨ma, mi, pa, ep, pre, post, dev⟩ := v
    rcases pre with _ | ⟨k, n⟩ <;> rcases post with _ | p <;> rcases dev with _ | d <;>
      simp only [PEP440Version.bumpCounter] at hlt <;>
      simp [PEP440Version.bump, PEP440Version.bump_post, PEP440Version.bump_dev,
        PEP440Version.new, PEP440Version.cmp, mod_u32_succ hlt, natCmp_self, natCmp_succ,
        optNatCmp_none_none, optNatCmp_none_some, optNatCmp_some_some,
        ordering_eq_then, ordering_lt_then, ordering_then_eq]
  · intro v hlt
    obtain ⟨ma, mi, pa, ep, pre, post, dev⟩ := v
    rcases pre with _ | ⟨k, n⟩ <;> rcases post with _ | p <;> rcases dev with _ | d <;>
      simp only [PEP440Version.bumpCounter] at hlt <;>
      simp [PEP440Version.bump, PEP440Version.bump_post, PEP440Version.bump_dev,
        PEP440Version.new, PEP440Version.cmp, mod_u32_succ hlt, natCmp_self, natCmp_succ,
        optNatCmp_none_none, optNatCmp_none_some, optNatCmp_some_some,
        ordering_eq_then, ordering_lt_then, ordering_then_eq]
  · intro v hpre hpost hdev hlt
    obtain ⟨ma, mi, pa, ep, pre, post, dev⟩ := v
    simp only at hpre hpost hdev hlt
    subst hpre; subst hpost; subst hdev
    constructor
    · simp [PEP440Version.cmp, natCmp_self, optNatCmp_none_none, optNatCmp_none_some,
        ordering_eq_then, ordering_then_eq]
    · simp [PEP440Version.bump, PEP440Version.new, PEP440Version.cmp, mod_u32_succ hlt,
        natCmp_self, natCmp_succ, optNatCmp_none_some, optNatCmp_some_some,
        ordering_eq_then, ordering_lt_then, ordering_then_eq]
  · intro v hpre hpost hdev hmax
    obtain ⟨ma, mi, pa, ep, pre, post, dev⟩ := v
    simp only at hpre hpost hdev hmax
    subst hpre; subst hpost; subst hdev; subst hmax
    simp [PEP440Version.bump, PEP440Version.new, PEP440Version.cmp, natCmp_self, natCmp,
      optNatCmp_none_none, ordering_eq_then, ordering_gt_then, ordering_then_eq]

/-- Claim C3 witness: the amended statement at concrete inputs — for the
plain version `1.0.0` (patch below `u32::MAX`), `1.0.0dev0` lies strictly
between `1.0.0` and its bump; and at `1.0.4294967295` the bump wraps and
compares below its input. -/
theorem claim3_witness :
    (PEP440Version.one.pre = Option.none ∧ PEP440Version.one.post = Option.none
      ∧ PEP440Version.one.dev = Option.none ∧ PEP440Version.one.patch < 4294967295)
    ∧ (PEP440Version.cmp PEP440Version.one { PEP440Version.one with dev := some 0 } = .lt
      ∧ PEP440Version.cmp { PEP440Version.one with dev := some 0 } PEP440Version.one.bump = .lt)
    ∧ PEP440Version.cmp (PEP440Version.new 1 0 4294967295)
        (PEP440Version.new 1 0 4294967295).bump = .gt :=
  ⟨⟨rfl, rfl, rfl, by decide⟩,
   claim3_bump_amended.2.2.1 PEP440Version.one rfl rfl rfl (by decide),
   claim3_bump_amended.2.2.2 (PEP440Version.new 1 0 4294967295) rfl rfl rfl rfl⟩

/-- Claim C9 counterexample: `from_str` parses `1.0.0a` to the plain version
`1.0.0` with no pre-release marker (the claim says pre-release kind Alpha
with counter 0), and parses `1.0.0-5` to the plain version `1.0.0` with no
post-release counter (the claim says post-release counter 5): the `pre_n`
capture is required for the pre to be kept, and only the `post_n2` capture —
never the `-N` shorthand's `post_n1` — is read. -/
theorem claim9_counterexample :
    PEP440Version.from_str "1.0.0a" = .ok (PEP440Version.new 1 0 0)
    ∧ (PEP440Version.new 1 0 0).pre = Option.none
    ∧ PEP440Version.from_str "1.0.0-5" = .ok (PEP440Version.new 1 0 0)
    ∧ (PEP440Version.new 1 0 0).post = Option.none :=
  ⟨by rfl, rfl, by rfl, rfl⟩

theorem parse_u32_ok (full : String) (part : List Char) (n : Nat)
    (h : parse_u32 full part = .ok n) : n = natOfDigits part := by
  unfold parse_u32 at h
  split at h
  · exact Except.noConfusion h
  · split at h
    · exact Except.noConfusion h
    · split at h
      · exact (Except.ok.inj h).symm
      · exact Except.noConfusion h

theorem from_str_capture_inversion (s : String) (c : VersionCaptures) (v : PEP440Version)
    (hc : versionCaptures s.data = some c) (h : PEP440Version.from_str s = .ok v) :
    (c.preN = Option.none → v.pre = Option.none)
    ∧ (c.postN2 = Option.none → v.post = Option.none)
    ∧ (∀ m, c.postN2 = some m → v.post = some (natOfDigits m)) := by
  unfold PEP440Version.from_str at h
  split at h
  · exact Except.noConfusion h
  · rename_i c' heqc
    rw [hc] at heqc
    injection heqc with hcc
    subst hcc
    split at h
    · exact Except.noConfusion h
    · rename_i dev heqdev
      split at h
      · exact Except.noConfusion h
      · rename_i post heqpost
        split at h
        · exact Except.noConfusion h
        · rename_i pre heqpre
          split at h
          · exact Except.noConfusion h
          · rename_i maj minr pat heqrel
            obtain rfl : _ = v := Except.ok.inj h
            refine ⟨?_, ?_, ?_⟩
            · intro hpn
              show pre = Option.none
              rcases hpl : c.preL with _ | nm <;> rw [hpl, hpn] at heqpre <;>
                simpa using heqpre.symm
            · intro hpn2
              show post = Option.none
              rw [hpn2] at heqpost
              simpa using heqpost.symm
            · intro m hm
              show post = some (natOfDigits m)
              rw [hm] at heqpost
              have heqpost2 : Except.map some (parse_u32 s m) = Except.ok post := heqpost
              cases hp : parse_u32 s m with
              | error e => rw [hp] at heqpost2; exact Except.noConfusion heqpost2
              | ok n =>
                rw [hp] at heqpost2
                simp only [Except.map] at heqpost2
                rw [← Except.ok.inj heqpost2, parse_u32_ok s m n hp]

/-- Claim C9 (amended): for every string the version grammar matches, the
parsed pre/post markers are determined by the `pre_n` and `post_n2` captures
alone: a pre-release tag whose counter capture is absent is dropped entirely
(`pre = None`, not counter 0), the post counter is exactly the parsed
`post_n2` capture when present and absent otherwise — so a spelled
`post|rev|r` tag without a counter, and the bare `-N` shorthand (whose
digits land in the never-read `post_n1`), leave the post counter unset.  In
particular `1.0.0a` and `1.0.0-5` parse to plain `1.0.0`, while explicit
counters (`1.0.0a1`, `1.0.0post5`, `1.0.0rev5`, `1.0.0r5`) are kept and
`1.0.0post` is dropped. -/
theorem claim9_parse_tags_amended :
    (∀ (s : String) (c : VersionCaptures) (v : PEP440Version),
      versionCaptures s.data = some c →
      PEP440Version.from_str s = .ok v →
      (c.preN = Option.none → v.pre = Option.none)
      ∧ (c.postN2 = Option.none → v.post = Option.none)
      ∧ (∀ m, c.postN2 = some m → v.post = some (natOfDigits m)))
    ∧ PEP440Version.from_str "1.0.0a" = .ok (PEP440Version.new 1 0 0)
    ∧ PEP440Version.from_str "1.0.0a1"
        = .ok { PEP440Version.new 1 0 0 with pre := some (Prerelease.Alpha, 1) }
    ∧ PEP440Version.from_str "1.0.0post5"
        = .ok { PEP440Version.new 1 0 0 with post := some 5 }
    ∧ PEP440Version.from_str "1.0.0rev5"
        = .ok { PEP440Version.new 1 0 0 with post := some 5 }
    ∧ PEP440Version.from_str "1.0.0r5"
        = .ok { PEP440Version.new 1 0 0 with post := some 5 }
    ∧ PEP440Version.from_str "1.0.0post" = .ok (PEP440Version.new 1 0 0)
    ∧ PEP440Version.from_str "1.0.0-5" = .ok (PEP440Version.new 1 0 0) :=
  ⟨fun s c v hc h => from_str_capture_inversion s c v hc h,
   by rfl, by rfl, by rfl, by rfl, by rfl, by rfl, by rfl⟩

/-- Claim C9 witness: the capture-level statement at the concrete strings
`1.0.0a` (pre tag with its counter capture absent) and `1.0.0-5` (bare
shorthand, whose digits land in `post_n1` while `post_n2` stays absent):
both parse with the corresponding marker dropped. -/
theorem claim9_witness :
    (PEP440Version.from_str "1.0.0a" = .ok (PEP440Version.new 1 0 0)
      ∧ (PEP440Version.new 1 0 0).pre = Option.none)
    ∧ (PEP440Version.from_str "1.0.0-5" = .ok (PEP440Version.new 1 0 0)
      ∧ (PEP440Version.new 1 0 0).post = Option.none) :=
  ⟨⟨by rfl,
    (claim9_parse_tags_amended.1 "1.0.0a"
      ⟨"1.0.0".data, some ['a'], Option.none, Option.none, Option.none, Option.none,
        Option.none, false⟩ (PEP440Version.new 1 0 0) (by rfl) (by rfl)).1 rfl⟩,
   ⟨by rfl,
    (claim9_parse_tags_amended.1 "1.0.0-5"
      ⟨"1.0.0".data, Option.none, Option.none, some ['5'], Option.none, Option.none,
        Option.none, false⟩ (PEP440Version.new 1 0 0) (by rfl) (by rfl)).2.1 rfl⟩⟩

/-- Claim C10: every string that `PEP440Version::from_str` parses successfully
yields a version with epoch 0 (the parser hard-codes `epoch: 0` and never
reads the `epoch` capture), and the struct carries no local-segment field;
in particular `1!1.2.3+abc123` — whose `1!` epoch prefix and `+abc123` local
suffix are accepted by the grammar — parses to the bare version `1.2.3`. -/
theorem claim10_epoch_zero :
    (∀ (s : String) (v : PEP440Version), PEP440Version.from_str s = .ok v → v.epoch = 0)
    ∧ PEP440Version.from_str "1!1.2.3+abc123" = .ok (PEP440Version.new 1 2 3) := by
  constructor
  · intro s v h
    unfold PEP440Version.from_str at h
    repeat' split at h
    all_goals first
      | exact Except.noConfusion h
      | (injection h with h1; subst h1; rfl)
  · rfl

/-- Claim C10 witness: the epoch-discarding fact at the concrete input
`2!4.5.6+local1`. -/
theorem claim10_witness :
    PEP440Version.from_str "2!4.5.6+local1" = .ok (PEP440Version.new 4 5 6)
    ∧ (PEP440Version.new 4 5 6).epoch = 0 :=
  ⟨by rfl, claim10_epoch_zero.1 "2!4.5.6+local1" (PEP440Version.new 4 5 6) (by rfl)⟩

theorem no_panic_of_all_found (f : List Char → SpecResult) :
    ∀ l : List (List Char), (∀ p ∈ l, (f p).isFound = true) →
    l.any (fun p => (f p).isPanicked) = false := by
  intro l
  induction l with
  | nil => intro _; rfl
  | cons p t ih =>
    intro h
    have hp := h p (List.mem_cons_self p t)
    have ht := ih (fun q hq => h q (List.mem_cons_of_mem p hq))
    simp only [List.any_cons, ht, Bool.or_false]
    cases hf : f p <;> simp [SpecResult.isFound, SpecResult.isPanicked, hf] at hp ⊢

theorem foldl_intersection_all (f : List Char → SpecResult) :
    ∀ l : List (List Char), (∀ p ∈ l, (f p).isFound = true) →
    ∀ (acc : Range) (w : PEP440Version),
    (l.foldl (fun a p =>
      match f p with
      | .found r => a.intersection r
      | _ => a) acc) w
      = (acc w && l.all (fun p => (f p).range w)) := by
  intro l
  induction l with
  | nil => intro _ acc w; simp
  | cons p t ih =>
    intro h acc w
    have hp := h p (List.mem_cons_self p t)
    cases hf : f p with
    | found r =>
      have hrec := ih (fun q hq => h q (List.mem_cons_of_mem p hq)) (acc.intersection r) w
      simp only [List.foldl_cons, hf]
      rw [hrec]
      simp [Range.intersection, SpecResult.range, hf, Bool.and_assoc]
    | noMatch => simp [hf, SpecResult.isFound] at hp
    | panicked => simp [hf, SpecResult.isFound] at hp

theorem parse_dependency_specs_case (s : String) (nm specsChars : List Char)
    (hc : dependencyCaptures s.data = some ⟨nm, some specsChars, Option.none⟩)
    (hall : ∀ p ∈ splitOnChar ',' specsChars, (parseSpecifierChars p).isFound = true) :
    parse_dependency s = some (some (String.mk nm,
      (splitOnChar ',' specsChars).foldl (fun acc p =>
        match parseSpecifierChars p with
        | .found r => acc.intersection r
        | _ => acc) Range.any))
    ∧ ∀ w, ((splitOnChar ',' specsChars).foldl (fun acc p =>
        match parseSpecifierChars p with
        | .found r => acc.intersection r
        | _ => acc) Range.any) w
      = (splitOnChar ',' specsChars).all (fun p => (parseSpecifierChars p).range w) := by
  have hnp := no_panic_of_all_found parseSpecifierChars (splitOnChar ',' specsChars) hall
  constructor
  · simp [parse_dependency, hc, hnp]
  · intro w
    rw [foldl_intersection_all parseSpecifierChars (splitOnChar ',' specsChars) hall Range.any w]
    simp [Range.any]

/-- Claim C6: for every requirement string the dependency grammar parses as a
name plus a parenthesized specs list (and no extra marker), with every
comma-separated specifier well-formed, `parse_dependency` returns the name
together with the intersection of the individual specifiers' ranges (as a
fold of `intersection` starting from `any`, whose membership is the
conjunction of the members'); a bare name with no specs yields `any`; in
particular `chardet (<4.0.0,>=3.0.2)` parses to `chardet` with
`between(3.0.2, 4.0.0)` and `pytz` parses to `pytz` with `any`. -/
theorem claim6_parse_dependency :
    (∀ (s : String) (nm specsChars : List Char),
      dependencyCaptures s.data = some ⟨nm, some specsChars, Option.none⟩ →
      (∀ p ∈ splitOnChar ',' specsChars, (parseSpecifierChars p).isFound = true) →
      ∃ R, parse_dependency s = some (some (String.mk nm, R))
        ∧ ∀ w, R w = (splitOnChar ',' specsChars).all (fun p => (parseSpecifierChars p).range w))
    ∧ (∀ (s : String) (nm : List Char),
      dependencyCaptures s.data = some ⟨nm, Option.none, Option.none⟩ →
      parse_dependency s = some (some (String.mk nm, Range.any)))
    ∧ (∃ R, parse_dependency "chardet (<4.0.0,>=3.0.2)" = some (some ("chardet", R))
        ∧ ∀ w, R w = Range.between (PEP440Version.new 3 0 2) (PEP440Version.new 4 0 0) w)
    ∧ parse_dependency "pytz" = some (some ("pytz", Range.any)) := by
  refine ⟨?_, ?_, ?_, by rfl⟩
  · intro s nm specsChars hc hall
    obtain ⟨h1, h2⟩ := parse_dependency_specs_case s nm specsChars hc hall
    exact ⟨_, h1, h2⟩
  · intro s nm hc
    simp [parse_dependency, hc]
  · refine ⟨_, rfl, fun w => ?_⟩
    show ((Range.any.intersection
            (Range.strictly_lower_than (PEP440Version.new 4 0 0))).intersection
            (Range.higher_than (PEP440Version.new 3 0 2))) w
        = Range.between (PEP440Version.new 3 0 2) (PEP440Version.new 4 0 0) w
    simp only [Range.intersection, Range.any, Range.higher_than,
      Range.strictly_lower_than, Range.between, Bool.true_and]
    exact Bool.and_comm _ _

/-- Claim C6 witness: the general statements at the concrete requirement
strings `six` (bare name) and `idna (<3.0.0,>=2.5.0)` (two specifiers). -/
theorem claim6_witness :
    parse_dependency "six" = some (some (String.mk "six".data, Range.any))
    ∧ (∃ R, parse_dependency "idna (<3.0.0,>=2.5.0)"
          = some (some (String.mk "idna".data, R))
        ∧ ∀ w, R w = (splitOnChar ',' ("<3.0.0,>=2.5.0".data)).all
            (fun p => (parseSpecifierChars p).range w)) :=
  ⟨claim6_parse_dependency.2.1 "six" ("six".data) (by rfl),
   claim6_parse_dependency.1 "idna (<3.0.0,>=2.5.0)" ("idna".data) ("<3.0.0,>=2.5.0".data)
     (by rfl) (by decide)⟩

/-- Claim C7: `compare_to_range` realizes the specifier table of §4.3: each
comparator's range contains exactly the versions in the prescribed relation
to the parsed version — `>=` is `higherThan(v)` so membership is `v ≤ w`;
`<=` is `union(strictlyLowerThan(v), exact(v))` so membership is `w ≤ v`;
`<` is `strictlyLowerThan(v)`; `>` is
`negate(union(strictlyLowerThan(v), exact(v)))` so membership is `w > v`;
and `==`, `!=`, `===`, `~=` are `exact(v)`, its negation, and the two
equality placeholders. -/
theorem claim7_compare_table :
    ∀ v w : PEP440Version,
    (compare_to_range .GreaterOrEqual v).contains w = vle v w
    ∧ (compare_to_range .LessOrEqual v).contains w = vle w v
    ∧ (compare_to_range .StrictLess v).contains w = vlt w v
    ∧ (compare_to_range .StrictGreater v).contains w = vgt w v
    ∧ (compare_to_range .Matching v).contains w = veq w v
    ∧ (compare_to_range .Exclusion v).contains w = (! veq w v)
    ∧ (compare_to_range .ArbitraryEqual v).contains w = veq w v
    ∧ (compare_to_range .Compatible v).contains w = veq w v := by
  intro v w
  refine ⟨rfl, ?_, rfl, ?_, rfl, rfl, rfl, rfl⟩
  · show (vlt w v || veq w v) = vle w v
    cases h : PEP440Version.cmp w v <;> simp [vlt, veq, vle, h]
  · show (! (vlt w v || veq w v)) = vgt w v
    cases h : PEP440Version.cmp w v <;> simp [vlt, veq, vgt, h]

/-- Claim C8: any requirement whose match of the dependency grammar carries
an extra marker (a `; ...` conditional) is dropped entirely:
`parse_dependency` returns `None` — no constraint and no error (and no
panic) — without looking at the specifiers. -/
theorem claim8_extra_dropped :
    (∀ (s : String) (caps : DepCaptures),
      dependencyCaptures s.data = some caps → caps.extra.isSome = true →
      parse_dependency s = some Option.none)
    ∧ parse_dependency "pyOpenSSL (>=0.14.0) ; extra == security" = some Option.none := by
  constructor
  · intro s caps hc he
    simp [parse_dependency, hc, he]
  · rfl

/-- Claim C8 witness: the extra-marker drop at the concrete requirement
string `urllib3 (>=1.0.0) ; extra == socks`. -/
theorem claim8_witness :
    parse_dependency "urllib3 (>=1.0.0) ; extra == socks" = some Option.none :=
  claim8_extra_dropped.1 "urllib3 (>=1.0.0) ; extra == socks"
    ⟨"urllib3".data, some (">=1.0.0".data), some ("extra == socks".data)⟩ (by rfl) (by rfl)

/-- Claim C4 counterexample: with every registry fetch failing, the Root
Provider's `choose_package_version` on the candidate set `[("root", any)]` —
which contains the pinned root package of `exampleRoot` — answers
`Ok(("root", None))`, not the forced `Ok(("root", Some 1.0.0)))`: the body
delegates to the inner provider unconditionally (the root special case is
commented out in `src/poetry_provider.rs`). -/
theorem claim4_counterexample :
    PoetryProvider.choose_package_version failingFetch exampleRoot [("root", Range.any)]
      = some (Except.ok ("root", (Option.none : Option PEP440Version)))
    ∧ exampleRoot.package = "root"
    ∧ exampleRoot.version = PEP440Version.one
    ∧ (Option.none : Option PEP440Version) ≠ some PEP440Version.one := by
  refine ⟨by rfl, rfl, rfl, by simp⟩

/-- Claim C4 (amended): `choose_package_version` delegates every candidate
set to the inner provider with no root special case, while
`get_dependencies` does short-circuit: it answers the pinned
`rootDependencies` for the root package without consulting the inner
provider, and delegates every other package to it. -/
theorem claim4_provider_amended :
    (∀ (fetch : String → Except String (List String)) (root : RootPackage)
       (cands : List (String × Range)),
      PoetryProvider.choose_package_version fetch root cands
        = PypiProvider.choose_package_version fetch cands)
    ∧ (∀ (fetchDeps : String → PEP440Version → Except String (Option (List String)))
        (root : RootPackage) (version : PEP440Version),
      PoetryProvider.get_dependencies fetchDeps root root.package version
        = some (Except.ok (Dependencies.Known root.dependencies)))
    ∧ (∀ (fetchDeps : String → PEP440Version → Except String (Option (List String)))
        (root : RootPackage) (package : String) (version : PEP440Version),
      package ≠ root.package →
      PoetryProvider.get_dependencies fetchDeps root package version
        = PypiProvider.get_dependencies fetchDeps package version) := by
  refine ⟨fun _ _ _ => rfl, ?_, ?_⟩
  · intro fetchDeps root version
    simp [PoetryProvider.get_dependencies]
  · intro fetchDeps root package version hne
    simp [PoetryProvider.get_dependencies, hne]

/-- Claim C4 witness: the amended statement at concrete inputs — the root
fixture's own dependencies are answered directly, and the distinct package
`other` is delegated. -/
theorem claim4_witness :
    PoetryProvider.get_dependencies failingFetchDeps exampleRoot exampleRoot.package
        PEP440Version.one
      = some (Except.ok (Dependencies.Known exampleRoot.dependencies))
    ∧ PoetryProvider.get_dependencies failingFetchDeps exampleRoot "other" PEP440Version.one
      = PypiProvider.get_dependencies failingFetchDeps "other" PEP440Version.one :=
  ⟨claim4_provider_amended.2.1 failingFetchDeps exampleRoot PEP440Version.one,
   claim4_provider_amended.2.2 failingFetchDeps exampleRoot "other" PEP440Version.one
     (by decide)⟩

/-- Claim C5 counterexample: with the registry fetch failing with a
transport error, `PypiProvider::choose_package_version` on the candidate
`requests` does not return `Err`: it returns `Ok(("requests", None))`,
behaving exactly as if the package had no versions (the fetch error is
swallowed by `.unwrap_or(Default::default())` in `src/provider.rs`). -/
theorem claim5_counterexample :
    PypiProvider.choose_package_version failingFetch [("requests", Range.any)]
      = some (Except.ok ("requests", (Option.none : Option PEP440Version)))
    ∧ (match PypiProvider.choose_package_version failingFetch [("requests", Range.any)] with
       | some (Except.error _) => true
       | _ => false) = false := by
  refine ⟨by rfl, by rfl⟩

/-- Claim C5 (amended): `get_dependencies` does propagate a fetch or decode
failure of the release metadata as a resolution-aborting `Err` for the
affected package, but `choose_package_version` never returns `Err` at all —
on any candidate set and any registry behaviour (failures included) it
returns `Ok`, treating a package whose fetch failed as simply having no
versions. -/
theorem claim5_errors_amended :
    (∀ (fetchDeps : String → PEP440Version → Except String (Option (List String)))
       (p : String) (v : PEP440Version) (e : String),
      fetchDeps p v = .error e →
      PypiProvider.get_dependencies fetchDeps p v = some (Except.error e))
    ∧ (∀ (fetch : String → Except String (List String))
        (c : String × Range) (cs : List (String × Range)),
      ∃ x, PypiProvider.choose_package_version fetch (c :: cs) = some (Except.ok x)) := by
  constructor
  · intro fetchDeps p v e he
    simp [PypiProvider.get_dependencies, get_deps, he]
  · intro fetch c cs
    exact ⟨_, rfl⟩

/-- Claim C5 witness: the amended statement at concrete inputs — a failing
metadata fetch for package `a` is propagated by `get_dependencies`, and
`choose_package_version` answers `Ok` on a singleton candidate set under the
failing registry. -/
theorem claim5_witness :
    PypiProvider.get_dependencies failingFetchDeps "a" PEP440Version.one
      = some (Except.error "connection refused")
    ∧ ∃ x, PypiProvider.choose_package_version failingFetch [("a", Range.any)]
      = some (Except.ok x) :=
  ⟨claim5_errors_amended.1 failingFetchDeps "a" PEP440Version.one "connection refused" rfl,
   claim5_errors_amended.2 failingFetch ("a", Range.any) []⟩

/-- Claim C1: whatever the inputs and however the resolver behaves, every
successful call of `resolve_pywrapper` returns literally the hard-coded
list `[("foo", "1.2.3")]` — in particular the call with root `requests` at
`2.25.0` and no requirements succeeds and returns a result containing
neither `requests` nor any package of its dependency closure. -/
theorem claim1_fixed_result :
    (∀ (resolveFn : String → PEP440Version → Option (List (String × PEP440Version)))
       (root version : String) (requires dev_requires : List (String × String))
       (r : List (String × String)),
      resolve_pywrapper resolveFn root version requires dev_requires = some r →
      r = [("foo", "1.2.3")])
    ∧ (∀ resolveFn, resolve_pywrapper resolveFn "requests" "2.25.0" [] [] =
        some [("foo", "1.2.3")]) := by
  constructor
  · intro resolveFn root version requires dev_requires r h
    unfold resolve_pywrapper at h
    split at h
    · injection h with h1
      exact h1.symm
    · exact Option.noConfusion h
  · intro resolveFn
    rfl

/-- Claim C1 witness: the fixed-result fact at the concrete call with root
`requests`, version `2.25.0`, empty requirement lists, and the
always-failing resolver stub. -/
theorem claim1_witness :
    resolve_pywrapper nullResolver "requests" "2.25.0" [] [] = some [("foo", "1.2.3")]
    ∧ ([("foo", "1.2.3")] : List (String × String)) = [("foo", "1.2.3")] :=
  ⟨rfl, claim1_fixed_result.1 nullResolver "requests" "2.25.0" [] [] [("foo", "1.2.3")] rfl⟩
